import Mathlib

/-!
Verification of the minimal PNG icon generator (`generate_icons.py`).

Bytes are modelled as `List Nat` (each entry a byte value).  The two
standard-library routines the script calls, `zlib.compress(·, 9)` and
`zlib.crc32`, are treated as follows: CRC-32 is defined below by the
standard reflected polynomial 0xEDB88320 algorithm (the spec names the
"standard PNG/zlib CRC-32 polynomial"), while DEFLATE compression is an
abstract function parameter `compress` threaded through the encoder,
since its byte-level output is external to this repository.
-/

set_option linter.unusedVariables false

namespace GenerateIcons

/-- Big-endian 32-bit encoding, as produced by `struct.pack('>I', n)`. -/
def be32 (n : Nat) : List Nat :=
  [n / 2 ^ 24 % 256, n / 2 ^ 16 % 256, n / 2 ^ 8 % 256, n % 256]

/-- Decode the first four bytes of a list as a big-endian 32-bit value. -/
def readBe32 : List Nat → Nat
  | b0 :: b1 :: b2 :: b3 :: _ => ((b0 * 256 + b1) * 256 + b2) * 256 + b3
  | _ => 0

/-- One bit step of the reflected CRC-32 algorithm (polynomial 0xEDB88320). -/
def crc32UpdateBit (c : Nat) : Nat :=
  if c % 2 = 1 then (c / 2) ^^^ 0xEDB88320 else c / 2

/-- One byte step of CRC-32: xor the byte in, then run eight bit steps. -/
def crc32UpdateByte (c b : Nat) : Nat :=
  crc32UpdateBit^[8] (c ^^^ b)

/-- CRC-32 of a byte sequence, as computed by `zlib.crc32`. -/
def crc32 (data : List Nat) : Nat :=
  (data.foldl crc32UpdateByte 0xFFFFFFFF) ^^^ 0xFFFFFFFF

/-- `create_chunk(chunk_type, data)`: length, type tag, payload, CRC over
(type ++ payload), the CRC masked to 32 bits as in the source. -/
def create_chunk (chunk_type : List Nat) (data : List Nat) : List Nat :=
  be32 data.length ++ chunk_type ++ data ++ be32 (crc32 (chunk_type ++ data) % 2 ^ 32)

/-- The fixed 8-byte PNG signature `b'\x89PNG\r\n\x1a\n'`. -/
def png_signature : List Nat := [0x89, 0x50, 0x4E, 0x47, 0x0D, 0x0A, 0x1A, 0x0A]

/-- The 4-byte ASCII tag `IHDR`. -/
def ihdrType : List Nat := [0x49, 0x48, 0x44, 0x52]

/-- The 4-byte ASCII tag `IDAT`. -/
def idatType : List Nat := [0x49, 0x44, 0x41, 0x54]

/-- The 4-byte ASCII tag `IEND`. -/
def iendType : List Nat := [0x49, 0x45, 0x4E, 0x44]

/-- The IHDR payload `struct.pack('>IIBBBBB', width, height, 8, 2, 0, 0, 0)`. -/
def ihdr_data (width height : Nat) : List Nat :=
  be32 width ++ be32 height ++ [8, 2, 0, 0, 0]

/-- The raw image buffer: for each of `height` scanlines a filter byte 0
followed by `width` copies of the background color triple. -/
def image_data (width height : Nat) (bg_color : Nat × Nat × Nat) : List Nat :=
  List.flatten (List.replicate height
    (0 :: List.flatten (List.replicate width [bg_color.1, bg_color.2.1, bg_color.2.2])))

/-- `create_png(width, height, bg_color, text_color)`, with the DEFLATE
compressor abstracted as the parameter `compress`.  As in the source,
`text_color` is accepted but not used. -/
def create_png (compress : List Nat → List Nat) (width height : Nat)
    (bg_color : Nat × Nat × Nat) (text_color : Nat × Nat × Nat) : List Nat :=
  png_signature ++
    create_chunk ihdrType (ihdr_data width height) ++
    create_chunk idatType (compress (image_data width height bg_color)) ++
    create_chunk iendType []

/-- Parse a byte stream as a sequence of PNG chunks, checking for every
chunk that the declared length covers the available bytes and that the
CRC field matches CRC-32 of (type tag ++ payload).  Returns the list of
(type tag, payload) pairs, or `none` on any framing violation. -/
def parseChunks (l : List Nat) : Option (List (List Nat × List Nat)) :=
  if hl : l = [] then some []
  else if h : readBe32 (l.take 4) + 12 ≤ l.length then
    if (l.drop (8 + readBe32 (l.take 4))).take 4 =
        be32 (crc32 ((l.drop 4).take 4 ++ (l.drop 8).take (readBe32 (l.take 4))) % 2 ^ 32) then
      match parseChunks (l.drop (12 + readBe32 (l.take 4))) with
      | some cs => some (((l.drop 4).take 4, (l.drop 8).take (readBe32 (l.take 4))) :: cs)
      | none => none
    else none
  else none
termination_by l.length
decreasing_by
  simp only [List.length_drop]
  have : l.length ≠ 0 := by simpa using hl
  omega

/-- Parse a PNG byte stream: the fixed signature followed by chunks. -/
def parsePNG (l : List Nat) : Option (List (List Nat × List Nat)) :=
  if l.take 8 = png_signature then parseChunks (l.drop 8) else none

/-- The density table of `generate_all_icons`. -/
def densities : List (String × Nat) :=
  [("mdpi", 48), ("hdpi", 72), ("xhdpi", 96), ("xxhdpi", 144), ("xxxhdpi", 192)]

def base_path : String := "app/src/main/res"

def mipmap_dir (density : String) : String :=
  base_path ++ "/mipmap-" ++ density

def launcher_path (density : String) : String :=
  mipmap_dir density ++ "/ic_launcher.png"

def launcher_round_path (density : String) : String :=
  mipmap_dir density ++ "/ic_launcher_round.png"

/-- `generate_all_icons`, modelled as the list of (file path, file bytes)
writes it performs, in order.  For each density the encoder is invoked
once and the same bytes are written under both launcher names, exactly as
in the source. -/
def generate_all_icons (compress : List Nat → List Nat) : List (String × List Nat) :=
  densities.flatMap (fun p =>
    [(launcher_path p.1, create_png compress p.2 p.2 (255, 107, 107) (33, 150, 243)),
     (launcher_round_path p.1, create_png compress p.2 p.2 (255, 107, 107) (33, 150, 243))])

/-- Observable outcome of one run of the script process. -/
structure ProcessOutcome where
  exit_code : Nat
  reraised : Bool
  console : List String
  deriving DecidableEq, Repr

/-- The console lines printed by the `except` block for error text `e`. -/
def error_lines (e : String) : List String :=
  ["❌ Error: " ++ e,
   "",
   "💡 Alternative: Use Android Studio Image Asset Studio",
   "   1. Right-click app/src/main/res",
   "   2. Select New → Image Asset",
   "   3. Choose Launcher Icons (Adaptive and Legacy)",
   "   4. Customize your icon and click Next → Finish"]

/-- The `if __name__ == '__main__'` block: run the generator; on success
the process ends with its success banner already printed, on any raised
exception print the error line and the static remediation instructions.
Python leaves the exit code at 0 in both cases and the handler does not
re-raise.  The generator run is abstracted as an `Except` value carrying
either its console output or the text of the raised exception. -/
def run_main (gen : Except String (List String)) : ProcessOutcome :=
  match gen with
  | Except.ok out => { exit_code := 0, reraised := false, console := out }
  | Except.error e => { exit_code := 0, reraised := false, console := error_lines e }

/-- First sanity lemma: big-endian decode inverts encode below 2^32,
even with trailing bytes present. -/
theorem readBe32_be32_append (n : Nat) (l : List Nat) (h : n < 2 ^ 32) :
    readBe32 (be32 n ++ l) = n := by
  simp only [be32, readBe32, List.cons_append, List.nil_append]
  omega

theorem length_be32 (n : Nat) : (be32 n).length = 4 := rfl

theorem readBe32_be32 (n : Nat) (h : n < 2 ^ 32) : readBe32 (be32 n) = n := by
  simpa using readBe32_be32_append n [] h

theorem length_create_chunk (ty data : List Nat) :
    (create_chunk ty data).length = ty.length + data.length + 8 := by
  simp [create_chunk, length_be32]
  omega

theorem length_ihdr_data (w h : Nat) : (ihdr_data w h).length = 13 := rfl

/-- Parsing the empty stream yields no chunks. -/
theorem parseChunks_nil : parseChunks [] = some [] := by
  rw [parseChunks]
  simp

/-- The key framing lemma: a well-formed chunk followed by anything parses
as that chunk consed onto the parse of the remainder. -/
theorem parseChunks_chunk_cons (ty data rest : List Nat) (hty : ty.length = 4)
    (hdata : data.length < 2 ^ 32) :
    parseChunks (create_chunk ty data ++ rest) =
      (parseChunks rest).map (fun cs => (ty, data) :: cs) := by
  have e1 : create_chunk ty data ++ rest =
      be32 data.length ++
        (ty ++ (data ++ (be32 (crc32 (ty ++ data) % 2 ^ 32) ++ rest))) := by
    simp [create_chunk, List.append_assoc]
  have e2 : create_chunk ty data ++ rest =
      (be32 data.length ++ ty) ++
        (data ++ (be32 (crc32 (ty ++ data) % 2 ^ 32) ++ rest)) := by
    simp [create_chunk, List.append_assoc]
  have e3 : create_chunk ty data ++ rest =
      ((be32 data.length ++ ty) ++ data) ++
        (be32 (crc32 (ty ++ data) % 2 ^ 32) ++ rest) := by
    simp [create_chunk, List.append_assoc]
  have e4 : create_chunk ty data ++ rest =
      (((be32 data.length ++ ty) ++ data) ++ be32 (crc32 (ty ++ data) % 2 ^ 32)) ++ rest := by
    simp [create_chunk, List.append_assoc]
  have hNe : create_chunk ty data ++ rest ≠ [] := by
    rw [e1]; simp [be32]
  have h4 : (create_chunk ty data ++ rest).take 4 = be32 data.length := by
    rw [e1]; exact List.take_left' (length_be32 _)
  have hn : readBe32 ((create_chunk ty data ++ rest).take 4) = data.length := by
    rw [h4]; exact readBe32_be32 _ hdata
  have hTy : ((create_chunk ty data ++ rest).drop 4).take 4 = ty := by
    rw [e1, List.drop_left' (length_be32 _)]
    exact List.take_left' hty
  have hData : ((create_chunk ty data ++ rest).drop 8).take data.length = data := by
    rw [e2, List.drop_left' (by simp [length_be32, hty]), List.take_left' rfl]
  have hCrc : ((create_chunk ty data ++ rest).drop (8 + data.length)).take 4 =
      be32 (crc32 (ty ++ data) % 2 ^ 32) := by
    rw [e3, List.drop_left' (by simp [length_be32, hty]; omega)]
    exact List.take_left' (length_be32 _)
  have hRest : (create_chunk ty data ++ rest).drop (12 + data.length) = rest := by
    rw [e4, List.drop_left' (by simp [length_be32, hty]; omega)]
  have hLen : readBe32 ((create_chunk ty data ++ rest).take 4) + 12 ≤
      (create_chunk ty data ++ rest).length := by
    rw [hn]
    simp [length_create_chunk, hty]
    omega
  rw [parseChunks, dif_neg hNe, dif_pos hLen, hn, hTy, hData, hCrc, hRest, if_pos rfl]
  cases parseChunks rest <;> simp

/-- Parsing a single well-formed chunk. -/
theorem parseChunks_single (ty data : List Nat) (hty : ty.length = 4)
    (hdata : data.length < 2 ^ 32) :
    parseChunks (create_chunk ty data) = some [(ty, data)] := by
  have := parseChunks_chunk_cons ty data [] hty hdata
  simpa [parseChunks_nil] using this

/-- Parsing the output of `create_png` recovers exactly the three chunks
IHDR, IDAT, IEND, in that order, with the expected payloads. -/
theorem parsePNG_create_png (compress : List Nat → List Nat) (w h : Nat)
    (bg tc : Nat × Nat × Nat)
    (hc : (compress (image_data w h bg)).length < 2 ^ 32) :
    parsePNG (create_png compress w h bg tc) =
      some [(ihdrType, ihdr_data w h),
            (idatType, compress (image_data w h bg)),
            (iendType, [])] := by
  have e : create_png compress w h bg tc =
      png_signature ++
        (create_chunk ihdrType (ihdr_data w h) ++
          (create_chunk idatType (compress (image_data w h bg)) ++
            create_chunk iendType [])) := by
    simp [create_png, List.append_assoc]
  rw [parsePNG, e, List.take_left' (show png_signature.length = 8 from rfl), if_pos rfl,
    List.drop_left' (show png_signature.length = 8 from rfl),
    parseChunks_chunk_cons ihdrType (ihdr_data w h) _ rfl (by rw [length_ihdr_data]; omega),
    parseChunks_chunk_cons idatType (compress (image_data w h bg)) _ rfl hc,
    parseChunks_single iendType [] rfl (by simp)]
  rfl

/-- Length of the raw image buffer. -/
theorem length_image_data (w h : Nat) (bg : Nat × Nat × Nat) :
    (image_data w h bg).length = h * (1 + 3 * w) := by
  simp only [image_data, List.length_flatten, List.map_replicate, List.sum_replicate,
    List.length_cons, List.length_nil, smul_eq_mul]
  ring

/-- Dropping a whole number of rows from a flattened replicated row list. -/
theorem drop_rows_flatten_replicate (row : List Nat) :
    ∀ (y h : Nat), y ≤ h →
      (List.flatten (List.replicate h row)).drop (y * row.length) =
        List.flatten (List.replicate (h - y) row) := by
  intro y
  induction y with
  | zero => intro h hy; simp
  | succ y ih =>
    intro h hy
    obtain ⟨k, rfl⟩ : ∃ k, h = k + 1 := ⟨h - 1, by omega⟩
    have e : List.replicate (k + 1) row = row :: List.replicate k row := by
      simp [List.replicate_succ]
    rw [e, List.flatten_cons,
      show (y + 1) * row.length = row.length + y * row.length from by ring,
      ← List.drop_drop, List.drop_left, ih k (by omega),
      show k + 1 - (y + 1) = k - y from by omega]

/-- Inside a row of pixels, the three bytes at offset 3·x are the color. -/
theorem take3_drop_pixels (r g b : Nat) :
    ∀ (x w : Nat) (rest : List Nat), x < w →
      ((List.flatten (List.replicate w [r, g, b]) ++ rest).drop (3 * x)).take 3 =
        [r, g, b] := by
  intro x
  induction x with
  | zero =>
    intro w rest hx
    obtain ⟨k, rfl⟩ : ∃ k, w = k + 1 := ⟨w - 1, by omega⟩
    simp [List.replicate_succ]
  | succ x ih =>
    intro w rest hx
    obtain ⟨k, rfl⟩ : ∃ k, w = k + 1 := ⟨w - 1, by omega⟩
    have e : List.flatten (List.replicate (k + 1) [r, g, b]) ++ rest =
        r :: g :: b :: (List.flatten (List.replicate k [r, g, b]) ++ rest) := by
      simp [List.replicate_succ]
    rw [e, show 3 * (x + 1) = 3 * x + 1 + 1 + 1 from by ring]
    simp only [List.drop_succ_cons]
    exact ih k rest (by omega)

/-- The scanline built for width `w` and color `bg` has length `1 + 3*w`. -/
theorem length_scanline (w : Nat) (bg : Nat × Nat × Nat) :
    (1 : Nat) + 3 * w =
      (0 :: List.flatten (List.replicate w [bg.1, bg.2.1, bg.2.2])).length := by
  simp only [List.length_cons, List.length_flatten, List.map_replicate, List.length_cons,
    List.length_nil, List.sum_replicate, smul_eq_mul]
  ring

/-- C1: for positive dimensions the raw image buffer consists of `height`
scanlines of one filter byte 0 followed by `width` copies of the color
triple, so it has length `height * (1 + 3*width)`; consequently, for any
compressor/decompressor pair that round-trips on this buffer, the
decompressed IDAT payload carries the filter byte 0 at the start of every
scanline and the requested background color at every pixel position. -/
theorem create_png_raw_buffer_and_pixels (w h : Nat) (bg : Nat × Nat × Nat)
    (compress decompress : List Nat → List Nat)
    (hw : 0 < w) (hh : 0 < h)
    (hdec : decompress (compress (image_data w h bg)) = image_data w h bg) :
    (image_data w h bg).length = h * (1 + 3 * w) ∧
    (∀ y, y < h →
      ((decompress (compress (image_data w h bg))).drop (y * (1 + 3 * w))).take 1 = [0]) ∧
    (∀ y x, y < h → x < w →
      ((decompress (compress (image_data w h bg))).drop
          (y * (1 + 3 * w) + (1 + 3 * x))).take 3 = [bg.1, bg.2.1, bg.2.2]) := by
  refine ⟨length_image_data w h bg, ?_, ?_⟩
  · intro y hy
    rw [hdec, image_data, length_scanline w bg,
      drop_rows_flatten_replicate _ y h hy.le]
    obtain ⟨k, hk⟩ : ∃ k, h - y = k + 1 := ⟨h - y - 1, by omega⟩
    rw [hk]
    simp [List.replicate_succ]
  · intro y x hy hx
    rw [hdec, image_data, length_scanline w bg, ← List.drop_drop,
      drop_rows_flatten_replicate _ y h hy.le]
    obtain ⟨k, hk⟩ : ∃ k, h - y = k + 1 := ⟨h - y - 1, by omega⟩
    rw [hk, List.replicate_succ, List.flatten_cons]
    simp only [List.cons_append]
    rw [show 1 + 3 * x = 3 * x + 1 from by ring]
    simp only [List.drop_succ_cons]
    exact take3_drop_pixels bg.1 bg.2.1 bg.2.2 x w _ hx

/-- C1 witness at width 1, height 1, color (5,6,7), identity compressor. -/
theorem create_png_raw_buffer_and_pixels_witness :
    (0 : Nat) < 1 ∧
    ((id (id (image_data 1 1 (5, 6, 7)))).drop
      (0 * (1 + 3 * 1) + (1 + 3 * 0))).take 3 = [5, 6, 7] :=
  ⟨by decide,
    (create_png_raw_buffer_and_pixels 1 1 (5, 6, 7) id id (by decide) (by decide) rfl).2.2
      0 0 (by decide) (by decide)⟩

/-- C2: `create_chunk` emits exactly length, type tag, payload, CRC; the
declared length field decodes to the payload byte count, the type and
payload are recoverable at their offsets, the CRC field decodes to CRC-32
of (type ++ payload), and the chunk passes the CRC-checking parser. -/
theorem create_chunk_framing (ty data : List Nat) (hty : ty.length = 4)
    (hdata : data.length < 2 ^ 32) :
    create_chunk ty data =
      be32 data.length ++ ty ++ data ++ be32 (crc32 (ty ++ data) % 2 ^ 32) ∧
    readBe32 ((create_chunk ty data).take 4) = data.length ∧
    ((create_chunk ty data).drop 4).take 4 = ty ∧
    ((create_chunk ty data).drop 8).take data.length = data ∧
    readBe32 ((create_chunk ty data).drop (8 + data.length)) =
      crc32 (ty ++ data) % 2 ^ 32 ∧
    parseChunks (create_chunk ty data) = some [(ty, data)] := by
  have e1 : create_chunk ty data =
      be32 data.length ++ (ty ++ (data ++ be32 (crc32 (ty ++ data) % 2 ^ 32))) := by
    simp [create_chunk, List.append_assoc]
  have e2 : create_chunk ty data =
      (be32 data.length ++ ty) ++ (data ++ be32 (crc32 (ty ++ data) % 2 ^ 32)) := by
    simp [create_chunk, List.append_assoc]
  have e3 : create_chunk ty data =
      ((be32 data.length ++ ty) ++ data) ++ be32 (crc32 (ty ++ data) % 2 ^ 32) := by
    simp [create_chunk, List.append_assoc]
  refine ⟨rfl, ?_, ?_, ?_, ?_, parseChunks_single ty data hty hdata⟩
  · rw [e1, List.take_left' (length_be32 _)]
    exact readBe32_be32 _ hdata
  · rw [e1, List.drop_left' (length_be32 _)]
    exact List.take_left' hty
  · rw [e2, List.drop_left' (by simp [length_be32, hty]), List.take_left' rfl]
  · rw [e3, List.drop_left' (by simp [length_be32, hty]; omega)]
    exact readBe32_be32 _ (Nat.mod_lt _ (by norm_num))

/-- C2 witness at type `IEND`, payload `[0, 1]`. -/
theorem create_chunk_framing_witness :
    iendType.length = 4 ∧ ([0, 1] : List Nat).length < 2 ^ 32 ∧
    readBe32 ((create_chunk iendType [0, 1]).take 4) = ([0, 1] : List Nat).length :=
  ⟨rfl, by decide, (create_chunk_framing iendType [0, 1] rfl (by decide)).2.1⟩

/-- C3: the encoder output is exactly the 8-byte signature followed by one
IHDR chunk, one IDAT chunk carrying the compressed raw buffer, and one
empty IEND chunk; the CRC-checking parser recovers exactly those three
chunks and nothing else. -/
theorem create_png_three_chunks (compress : List Nat → List Nat) (w h : Nat)
    (bg tc : Nat × Nat × Nat)
    (hc : (compress (image_data w h bg)).length < 2 ^ 32) :
    create_png compress w h bg tc =
      png_signature ++ create_chunk ihdrType (ihdr_data w h) ++
        create_chunk idatType (compress (image_data w h bg)) ++
        create_chunk iendType [] ∧
    parsePNG (create_png compress w h bg tc) =
      some [(ihdrType, ihdr_data w h),
            (idatType, compress (image_data w h bg)),
            (iendType, [])] :=
  ⟨rfl, parsePNG_create_png compress w h bg tc hc⟩

/-- C3 witness at width 1, height 1, identity compressor. -/
theorem create_png_three_chunks_witness :
    ((fun l : List Nat => l) (image_data 1 1 (0, 0, 0))).length < 2 ^ 32 ∧
    parsePNG (create_png (fun l => l) 1 1 (0, 0, 0) (9, 9, 9)) =
      some [(ihdrType, ihdr_data 1 1),
            (idatType, (fun l : List Nat => l) (image_data 1 1 (0, 0, 0))),
            (iendType, [])] :=
  ⟨by decide, (create_png_three_chunks (fun l => l) 1 1 (0, 0, 0) (9, 9, 9) (by decide)).2⟩

/-- The width and height fields of the IHDR payload decode to the inputs. -/
theorem ihdr_dims (w h : Nat) (hw : w < 2 ^ 32) (hh : h < 2 ^ 32) :
    readBe32 ((ihdr_data w h).take 4) = w ∧ readBe32 ((ihdr_data w h).drop 4) = h := by
  have e1 : ihdr_data w h = be32 w ++ (be32 h ++ [8, 2, 0, 0, 0]) := by
    simp [ihdr_data, List.append_assoc]
  constructor
  · rw [e1, List.take_left' (length_be32 _)]
    exact readBe32_be32 _ hw
  · rw [e1, List.drop_left' (length_be32 _)]
    exact readBe32_be32_append _ _ hh

/-- C4: the IHDR payload is 13 bytes — width and height as big-endian
32-bit values followed by the five fixed bytes 8, 2, 0, 0, 0 — and within
the encoder output the 25 bytes after the signature are exactly the IHDR
chunk wrapping that payload. -/
theorem ihdr_header_fields (w h : Nat) (hw : w < 2 ^ 32) (hh : h < 2 ^ 32) :
    (ihdr_data w h).length = 13 ∧
    readBe32 ((ihdr_data w h).take 4) = w ∧
    readBe32 ((ihdr_data w h).drop 4) = h ∧
    (ihdr_data w h).drop 8 = [8, 2, 0, 0, 0] ∧
    ∀ compress bg tc,
      ((create_png compress w h bg tc).drop 8).take 25 =
        create_chunk ihdrType (ihdr_data w h) := by
  refine ⟨length_ihdr_data w h, (ihdr_dims w h hw hh).1, (ihdr_dims w h hw hh).2, ?_, ?_⟩
  · rw [ihdr_data, List.drop_left' (by simp [length_be32])]
  · intro compress bg tc
    have e : create_png compress w h bg tc =
        png_signature ++
          (create_chunk ihdrType (ihdr_data w h) ++
            (create_chunk idatType (compress (image_data w h bg)) ++
              create_chunk iendType [])) := by
      simp [create_png, List.append_assoc]
    rw [e, List.drop_left' (show png_signature.length = 8 from rfl),
      List.take_left' (by simp [length_create_chunk, length_ihdr_data, ihdrType])]

/-- C4 witness at width 48, height 96. -/
theorem ihdr_header_fields_witness :
    (48 : Nat) < 2 ^ 32 ∧ (96 : Nat) < 2 ^ 32 ∧
    readBe32 ((ihdr_data 48 96).take 4) = 48 ∧
    readBe32 ((ihdr_data 48 96).drop 4) = 96 :=
  ⟨by decide, by decide, (ihdr_header_fields 48 96 (by decide) (by decide)).2.1,
    (ihdr_header_fields 48 96 (by decide) (by decide)).2.2.1⟩

/-- C5: the encoder is deterministic — two calls with identical arguments
(and the same deterministic compressor) produce byte-identical output; the
embedding is a pure function of its arguments, with no ambient state. -/
theorem create_png_deterministic (compress : List Nat → List Nat)
    (w1 h1 : Nat) (bg1 tc1 : Nat × Nat × Nat)
    (w2 h2 : Nat) (bg2 tc2 : Nat × Nat × Nat)
    (hW : w1 = w2) (hH : h1 = h2) (hBg : bg1 = bg2) (hTc : tc1 = tc2) :
    create_png compress w1 h1 bg1 tc1 = create_png compress w2 h2 bg2 tc2 := by
  rw [hW, hH, hBg, hTc]

/-- C5 witness: two calls at 48×48 with color (255,107,107) agree. -/
theorem create_png_deterministic_witness :
    create_png id 48 48 (255, 107, 107) (33, 150, 243) =
      create_png id 48 48 (255, 107, 107) (33, 150, 243) :=
  create_png_deterministic id 48 48 (255, 107, 107) (33, 150, 243)
    48 48 (255, 107, 107) (33, 150, 243) rfl rfl rfl rfl

/-- C9: the encoder output is independent of the `text_color` parameter:
it is accepted but never used. -/
theorem create_png_ignores_text_color (compress : List Nat → List Nat)
    (w h : Nat) (bg t1 t2 : Nat × Nat × Nat) :
    create_png compress w h bg t1 = create_png compress w h bg t2 := rfl

/-- C8: a failing generator run is handled by the single top-level
handler: the process reports exit code 0, does not re-raise, and its
console output is the error line for the raised exception followed by the
static remediation instructions (the same tail for every error); a
successful run also exits with code 0. -/
theorem run_main_catches_all (e : String) (out : List String) :
    (run_main (Except.error e)).exit_code = 0 ∧
    (run_main (Except.error e)).reraised = false ∧
    (run_main (Except.error e)).console = error_lines e ∧
    (error_lines e).take 1 = ["❌ Error: " ++ e] ∧
    (error_lines e).drop 1 = (error_lines "").drop 1 ∧
    (run_main (Except.ok out)).exit_code = 0 :=
  ⟨rfl, rfl, rfl, rfl, rfl, rfl⟩

/-- C10: with a zero width or height the encoder still returns a
well-framed stream — signature plus IHDR, IDAT, IEND chunks that pass the
length- and CRC-checking parser — whose IHDR records the zero dimension
and whose raw (decompressed) IDAT payload is exactly `height` filter
bytes with no pixel data, hence empty when the height is zero. -/
theorem create_png_zero_dimension (compress decompress : List Nat → List Nat)
    (w h : Nat) (bg tc : Nat × Nat × Nat)
    (hzero : w = 0 ∨ h = 0) (hw : w < 2 ^ 32) (hh : h < 2 ^ 32)
    (hc : (compress (image_data w h bg)).length < 2 ^ 32)
    (hdec : decompress (compress (image_data w h bg)) = image_data w h bg) :
    parsePNG (create_png compress w h bg tc) =
      some [(ihdrType, ihdr_data w h),
            (idatType, compress (image_data w h bg)),
            (iendType, [])] ∧
    readBe32 ((ihdr_data w h).take 4) = w ∧
    readBe32 ((ihdr_data w h).drop 4) = h ∧
    decompress (compress (image_data w h bg)) = List.replicate h 0 := by
  refine ⟨parsePNG_create_png compress w h bg tc hc,
    (ihdr_dims w h hw hh).1, (ihdr_dims w h hw hh).2, ?_⟩
  rw [hdec]
  rcases hzero with rfl | rfl <;> simp [image_data]

/-- C10 witness at width 0, height 2, identity compressor. -/
theorem create_png_zero_dimension_witness :
    ((0 : Nat) = 0 ∨ (2 : Nat) = 0) ∧
    (parsePNG (create_png id 0 2 (1, 2, 3) (0, 0, 0)) =
      some [(ihdrType, ihdr_data 0 2),
            (idatType, id (image_data 0 2 (1, 2, 3))),
            (iendType, [])] ∧
    readBe32 ((ihdr_data 0 2).take 4) = 0 ∧
    readBe32 ((ihdr_data 0 2).drop 4) = 2 ∧
    id (id (image_data 0 2 (1, 2, 3))) = List.replicate 2 0) :=
  ⟨Or.inl rfl,
    create_png_zero_dimension id id 0 2 (1, 2, 3) (0, 0, 0) (Or.inl rfl)
      (by decide) (by decide) (by decide) rfl⟩

/-- C6: one driver run writes exactly 10 files — for each of the five
densities, the regular and round launcher icon under the expected
mipmap directory — at pairwise distinct paths, and each written byte
sequence is the encoder output for that density's square size and passes
the structural PNG check with the size recorded in its IHDR. -/
theorem generate_all_icons_ten_files (compress : List Nat → List Nat)
    (hc : ∀ l : List Nat, (compress l).length < 2 ^ 32) :
    (generate_all_icons compress).length = 10 ∧
    (generate_all_icons compress).map Prod.fst =
      ["app/src/main/res/mipmap-mdpi/ic_launcher.png",
       "app/src/main/res/mipmap-mdpi/ic_launcher_round.png",
       "app/src/main/res/mipmap-hdpi/ic_launcher.png",
       "app/src/main/res/mipmap-hdpi/ic_launcher_round.png",
       "app/src/main/res/mipmap-xhdpi/ic_launcher.png",
       "app/src/main/res/mipmap-xhdpi/ic_launcher_round.png",
       "app/src/main/res/mipmap-xxhdpi/ic_launcher.png",
       "app/src/main/res/mipmap-xxhdpi/ic_launcher_round.png",
       "app/src/main/res/mipmap-xxxhdpi/ic_launcher.png",
       "app/src/main/res/mipmap-xxxhdpi/ic_launcher_round.png"] ∧
    ((generate_all_icons compress).map Prod.fst).Nodup ∧
    ∀ pr ∈ generate_all_icons compress,
      ∃ s : Nat, (s = 48 ∨ s = 72 ∨ s = 96 ∨ s = 144 ∨ s = 192) ∧
        pr.2 = create_png compress s s (255, 107, 107) (33, 150, 243) ∧
        parsePNG pr.2 =
          some [(ihdrType, ihdr_data s s),
                (idatType, compress (image_data s s (255, 107, 107))),
                (iendType, [])] ∧
        readBe32 ((ihdr_data s s).take 4) = s := by
  refine ⟨rfl, rfl, ?_, ?_⟩
  · show (["app/src/main/res/mipmap-mdpi/ic_launcher.png",
       "app/src/main/res/mipmap-mdpi/ic_launcher_round.png",
       "app/src/main/res/mipmap-hdpi/ic_launcher.png",
       "app/src/main/res/mipmap-hdpi/ic_launcher_round.png",
       "app/src/main/res/mipmap-xhdpi/ic_launcher.png",
       "app/src/main/res/mipmap-xhdpi/ic_launcher_round.png",
       "app/src/main/res/mipmap-xxhdpi/ic_launcher.png",
       "app/src/main/res/mipmap-xxhdpi/ic_launcher_round.png",
       "app/src/main/res/mipmap-xxxhdpi/ic_launcher.png",
       "app/src/main/res/mipmap-xxxhdpi/ic_launcher_round.png"] : List String).Nodup
    decide
  intro pr hpr
  have hpr' : pr ∈
      [(launcher_path "mdpi", create_png compress 48 48 (255, 107, 107) (33, 150, 243)),
       (launcher_round_path "mdpi", create_png compress 48 48 (255, 107, 107) (33, 150, 243)),
       (launcher_path "hdpi", create_png compress 72 72 (255, 107, 107) (33, 150, 243)),
       (launcher_round_path "hdpi", create_png compress 72 72 (255, 107, 107) (33, 150, 243)),
       (launcher_path "xhdpi", create_png compress 96 96 (255, 107, 107) (33, 150, 243)),
       (launcher_round_path "xhdpi", create_png compress 96 96 (255, 107, 107) (33, 150, 243)),
       (launcher_path "xxhdpi", create_png compress 144 144 (255, 107, 107) (33, 150, 243)),
       (launcher_round_path "xxhdpi", create_png compress 144 144 (255, 107, 107) (33, 150, 243)),
       (launcher_path "xxxhdpi", create_png compress 192 192 (255, 107, 107) (33, 150, 243)),
       (launcher_round_path "xxxhdpi", create_png compress 192 192 (255, 107, 107) (33, 150, 243))] :=
    hpr
  simp only [List.mem_cons, List.not_mem_nil, or_false] at hpr'
  rcases hpr' with rfl | rfl | rfl | rfl | rfl | rfl | rfl | rfl | rfl | rfl
  · exact ⟨48, Or.inl rfl, rfl,
      parsePNG_create_png compress 48 48 (255, 107, 107) (33, 150, 243) (hc _),
      (ihdr_dims 48 48 (by decide) (by decide)).1⟩
  · exact ⟨48, Or.inl rfl, rfl,
      parsePNG_create_png compress 48 48 (255, 107, 107) (33, 150, 243) (hc _),
      (ihdr_dims 48 48 (by decide) (by decide)).1⟩
  · exact ⟨72, Or.inr (Or.inl rfl), rfl,
      parsePNG_create_png compress 72 72 (255, 107, 107) (33, 150, 243) (hc _),
      (ihdr_dims 72 72 (by decide) (by decide)).1⟩
  · exact ⟨72, Or.inr (Or.inl rfl), rfl,
      parsePNG_create_png compress 72 72 (255, 107, 107) (33, 150, 243) (hc _),
      (ihdr_dims 72 72 (by decide) (by decide)).1⟩
  · exact ⟨96, Or.inr (Or.inr (Or.inl rfl)), rfl,
      parsePNG_create_png compress 96 96 (255, 107, 107) (33, 150, 243) (hc _),
      (ihdr_dims 96 96 (by decide) (by decide)).1⟩
  · exact ⟨96, Or.inr (Or.inr (Or.inl rfl)), rfl,
      parsePNG_create_png compress 96 96 (255, 107, 107) (33, 150, 243) (hc _),
      (ihdr_dims 96 96 (by decide) (by decide)).1⟩
  · exact ⟨144, Or.inr (Or.inr (Or.inr (Or.inl rfl))), rfl,
      parsePNG_create_png compress 144 144 (255, 107, 107) (33, 150, 243) (hc _),
      (ihdr_dims 144 144 (by decide) (by decide)).1⟩
  · exact ⟨144, Or.inr (Or.inr (Or.inr (Or.inl rfl))), rfl,
      parsePNG_create_png compress 144 144 (255, 107, 107) (33, 150, 243) (hc _),
      (ihdr_dims 144 144 (by decide) (by decide)).1⟩
  · exact ⟨192, Or.inr (Or.inr (Or.inr (Or.inr rfl))), rfl,
      parsePNG_create_png compress 192 192 (255, 107, 107) (33, 150, 243) (hc _),
      (ihdr_dims 192 192 (by decide) (by decide)).1⟩
  · exact ⟨192, Or.inr (Or.inr (Or.inr (Or.inr rfl))), rfl,
      parsePNG_create_png compress 192 192 (255, 107, 107) (33, 150, 243) (hc _),
      (ihdr_dims 192 192 (by decide) (by decide)).1⟩

/-- C6 witness with the constant-empty compressor. -/
theorem generate_all_icons_ten_files_witness :
    (∀ l : List Nat, ((fun _ => ([] : List Nat)) l).length < 2 ^ 32) ∧
    (generate_all_icons (fun _ => ([] : List Nat))).length = 10 ∧
    ((generate_all_icons (fun _ => ([] : List Nat))).map Prod.fst).Nodup :=
  ⟨fun l => by show ([] : List Nat).length < 2 ^ 32; decide,
    (generate_all_icons_ten_files (fun _ => ([] : List Nat)) (fun l => by show ([] : List Nat).length < 2 ^ 32; decide)).1,
    (generate_all_icons_ten_files (fun _ => ([] : List Nat)) (fun l => by show ([] : List Nat).length < 2 ^ 32; decide)).2.2.1⟩

/-- C7: for every density in the table, the bytes written under the
regular and the round launcher name are byte-identical, both equal to the
single encoder invocation for that density's size with the default
colors. -/
theorem launcher_and_round_identical (compress : List Nat → List Nat)
    (d : String) (s : Nat) (hds : (d, s) ∈ densities) :
    (generate_all_icons compress).lookup (launcher_path d) =
      some (create_png compress s s (255, 107, 107) (33, 150, 243)) ∧
    (generate_all_icons compress).lookup (launcher_round_path d) =
      some (create_png compress s s (255, 107, 107) (33, 150, 243)) := by
  have hds' : (d, s) ∈
      [(("mdpi" : String), (48 : Nat)), ("hdpi", 72), ("xhdpi", 96),
       ("xxhdpi", 144), ("xxxhdpi", 192)] := hds
  simp only [List.mem_cons, List.not_mem_nil, or_false, Prod.mk.injEq] at hds'
  rcases hds' with ⟨rfl, rfl⟩ | ⟨rfl, rfl⟩ | ⟨rfl, rfl⟩ | ⟨rfl, rfl⟩ | ⟨rfl, rfl⟩ <;>
    exact ⟨rfl, rfl⟩

/-- C7 witness at the mdpi density. -/
theorem launcher_and_round_identical_witness :
    ("mdpi", (48 : Nat)) ∈ densities ∧
    ((generate_all_icons id).lookup (launcher_path "mdpi") =
      some (create_png id 48 48 (255, 107, 107) (33, 150, 243)) ∧
    (generate_all_icons id).lookup (launcher_round_path "mdpi") =
      some (create_png id 48 48 (255, 107, 107) (33, 150, 243))) :=
  ⟨by decide, launcher_and_round_identical id "mdpi" 48 (by decide)⟩

end GenerateIcons
